import Mathlib

/-!
Verification of the fallback-resolution registry in `src/kagglehub/registry.py`.

The file under verification defines `MultiImplRegistry`, a dispatcher that
tries registered resolver implementations in reverse registration order:
the first resolver whose `is_supported` returns true is invoked and its
result returned; authentication failures fall through to the next resolver,
all other exceptions propagate immediately; on exhaustion the last recorded
authentication exception is re-raised, or a generic `RuntimeError` is raised.

Python exceptions are modelled with an explicit `Exc` type, fallible calls
with `Except Exc`, and the dispatch loop as a recursive function that also
records a trace of the resolver methods it calls, so that claims about
"resolver X is never called" are statable.
-/

/-- Modelled from the spec: an HTTP response object attached to an HTTP-error
exception, carrying a numeric status code (the exception classes live in
`kagglehub/exceptions.py`, which is not part of this excerpt; the spec says
the response "carries an HTTP status code"). -/
structure Response where
  status_code : Nat
deriving DecidableEq, Repr

/-- Modelled from the spec: the exception taxonomy visible to the registry.
`kagglehub/exceptions.py` is not part of this excerpt; per the spec there are
an explicit "unauthenticated" exception, two HTTP-error exception types
(Kaggle API and Colab) carrying an optional response, the `RuntimeError`
raised by the registry itself, and arbitrary other exceptions. -/
inductive Exc where
  | unauthenticatedError (msg : String)
  | kaggleApiHTTPError (response : Option Response)
  | colabHTTPError (response : Option Response)
  | runtimeError (msg : String)
  | other (msg : String)
deriving DecidableEq, Repr

/-- `http.HTTPStatus.UNAUTHORIZED` (401). -/
def HTTPStatus.UNAUTHORIZED : Nat := 401

/-- `http.HTTPStatus.FORBIDDEN` (403). -/
def HTTPStatus.FORBIDDEN : Nat := 403

/-- Embedding of `_is_auth_failure` from `registry.py`: true for
`UnauthenticatedError`, and for `KaggleApiHTTPError`/`ColabHTTPError` whose
response is present and has status code 401 or 403; false otherwise. -/
def _is_auth_failure (exc : Exc) : Bool :=
  match exc with
  | .unauthenticatedError _ => true
  | .kaggleApiHTTPError (some response) =>
      response.status_code == HTTPStatus.UNAUTHORIZED ||
        response.status_code == HTTPStatus.FORBIDDEN
  | .colabHTTPError (some response) =>
      response.status_code == HTTPStatus.UNAUTHORIZED ||
        response.status_code == HTTPStatus.FORBIDDEN
  | _ => false

/-- Modelled from the spec: a resolver implementation (`kagglehub/resolver.py`
is not part of this excerpt). It exposes `is_supported` and an invocation
(`__call__` in Python, called `invoke` here); either may raise. `name` stands
for `type(impl).__name__`, the display name used in diagnostics. -/
structure Resolver (Args Res : Type) where
  name : String
  is_supported : Args → Except Exc Bool
  invoke : Args → Except Exc Res

/-- A resolver-method call observed during dispatch, for stating which
resolvers are (not) tried. -/
inductive MethodCall where
  | isSupportedCall (resolver : String)
  | invokeCall (resolver : String)
deriving DecidableEq, Repr

/-- Outcome of a dispatch: the returned value or raised exception, together
with the trace of resolver methods called, in order. -/
structure DispatchResult (Res : Type) where
  result : Except Exc Res
  trace : List MethodCall

/-- Python `repr` of a string, for names without quotes or escapes
(\x27 is the single-quote character). -/
def pyStrRepr (s : String) : String := "\x27" ++ s ++ "\x27"

/-- Python `repr` of a list of strings. -/
def pyListRepr (xs : List String) : String :=
  "[" ++ String.intercalate ", " (xs.map pyStrRepr) ++ "]"

/-- The message of the generic `RuntimeError` raised on exhaustion:
`f"Missing implementation that supports: {self._name}(*{args!r}, **{kwargs!r}). Tried {fails!r}"`.
Here `argsRepr` stands for the rendering of the forwarded positional and
keyword arguments (`*{args!r}, **{kwargs!r}`), which this embedding carries
as a single opaque argument value. -/
def missingImplMsg (name : String) (argsRepr : String) (fails : List String) : String :=
  "Missing implementation that supports: " ++
    (name ++ ("(" ++ (argsRepr ++ ("). Tried " ++ pyListRepr fails))))

/-- The `for impl in reversed(self._impls)` loop of `MultiImplRegistry.__call__`,
with the accumulated `fails` list, `last_auth_exception`, and the call trace
made explicit. On each resolver: if `is_supported` returns false, record the
name and continue; if it returns true, invoke and return the result on normal
return; any exception from either method is classified by `_is_auth_failure` —
auth failures record the name, remember the exception, and continue, all
others propagate immediately. On exhaustion, re-raise the last auth exception
if any, else raise the generic `RuntimeError`. -/
def dispatchLoop (regName argsRepr : String) (args : Args) :
    List (Resolver Args Res) → List String → Option Exc → List MethodCall →
    DispatchResult Res
  | [], fails, last_auth_exception, trace =>
    match last_auth_exception with
    | some exc => ⟨.error exc, trace⟩
    | none => ⟨.error (.runtimeError (missingImplMsg regName argsRepr fails)), trace⟩
  | impl :: rest, fails, last_auth_exception, trace =>
    match impl.is_supported args with
    | .error exc =>
      if _is_auth_failure exc then
        dispatchLoop regName argsRepr args rest (fails ++ [impl.name]) (some exc)
          (trace ++ [.isSupportedCall impl.name])
      else
        ⟨.error exc, trace ++ [.isSupportedCall impl.name]⟩
    | .ok false =>
      dispatchLoop regName argsRepr args rest (fails ++ [impl.name]) last_auth_exception
        (trace ++ [.isSupportedCall impl.name])
    | .ok true =>
      match impl.invoke args with
      | .ok r => ⟨.ok r, trace ++ [.isSupportedCall impl.name, .invokeCall impl.name]⟩
      | .error exc =>
        if _is_auth_failure exc then
          dispatchLoop regName argsRepr args rest (fails ++ [impl.name]) (some exc)
            (trace ++ [.isSupportedCall impl.name, .invokeCall impl.name])
        else
          ⟨.error exc, trace ++ [.isSupportedCall impl.name, .invokeCall impl.name]⟩

/-- Embedding of `MultiImplRegistry`: a diagnostics name and the ordered,
append-only list of registered implementations. -/
structure MultiImplRegistry (Args Res : Type) where
  name : String
  impls : List (Resolver Args Res)

/-- `add_implementation`: appends to the implementation list. -/
def MultiImplRegistry.add_implementation (reg : MultiImplRegistry Args Res)
    (impl : Resolver Args Res) : MultiImplRegistry Args Res :=
  { reg with impls := reg.impls ++ [impl] }

/-- `MultiImplRegistry.__call__`: run the dispatch loop over the registered
implementations in reverse registration order, with empty `fails`, no
`last_auth_exception`, and an empty trace. `pyRepr` models Python `repr`
on the forwarded call arguments (used only in the generic error message). -/
def MultiImplRegistry.call (reg : MultiImplRegistry Args Res)
    (pyRepr : Args → String) (args : Args) : DispatchResult Res :=
  dispatchLoop reg.name (pyRepr args) args reg.impls.reverse [] none []

/-- A resolver "falls through" at `args` when trying it neither returns a
result nor propagates: `is_supported` raises an auth failure, or returns
false, or returns true and the invocation raises an auth failure. -/
def fallsThrough (args : Args) (r : Resolver Args Res) : Bool :=
  match r.is_supported args with
  | .error exc => _is_auth_failure exc
  | .ok false => true
  | .ok true =>
    match r.invoke args with
    | .ok _ => false
    | .error exc => _is_auth_failure exc

/-- The authentication exception a resolver raises at `args`, if trying it
raises one (from `is_supported` or from the invocation). -/
def authExcOf (args : Args) (r : Resolver Args Res) : Option Exc :=
  match r.is_supported args with
  | .error exc => if _is_auth_failure exc then some exc else none
  | .ok false => none
  | .ok true =>
    match r.invoke args with
    | .ok _ => none
    | .error exc => if _is_auth_failure exc then some exc else none

/-- The value of `last_auth_exception` after trying a list of resolvers in
order, starting from `acc`: each resolver that raises an auth failure
overwrites the remembered exception. -/
def finalAuth (args : Args) (acc : Option Exc) :
    List (Resolver Args Res) → Option Exc
  | [] => acc
  | r :: rest =>
    finalAuth args (match authExcOf args r with | some e => some e | none => acc) rest

/-- The trace events produced by trying one resolver: its `is_supported`
call, plus its invocation when `is_supported` returned true. -/
def fallEvents (args : Args) (r : Resolver Args Res) : List MethodCall :=
  match r.is_supported args with
  | .ok true => [.isSupportedCall r.name, .invokeCall r.name]
  | _ => [.isSupportedCall r.name]

/-- A resolver raises the non-authentication exception `e` at `args`: either
`is_supported` raises it, or `is_supported` returns true and the invocation
raises it, and `_is_auth_failure` classifies it as non-auth. -/
def raisesNonAuth (args : Args) (r : Resolver Args Res) (e : Exc) : Prop :=
  (r.is_supported args = .error e ∧ _is_auth_failure e = false) ∨
    (r.is_supported args = .ok true ∧ r.invoke args = .error e ∧
      _is_auth_failure e = false)

/-- A resolver raises the authentication failure `e` at `args`: from
`is_supported` or from the invocation, with `_is_auth_failure e = true`. -/
def raisesAuth (args : Args) (r : Resolver Args Res) (e : Exc) : Prop :=
  (r.is_supported args = .error e ∧ _is_auth_failure e = true) ∨
    (r.is_supported args = .ok true ∧ r.invoke args = .error e ∧
      _is_auth_failure e = true)

/-- Concrete resolver that supports every call and succeeds, for witnesses. -/
def httpResolver : Resolver Nat (String × Option Int) :=
  ⟨"HttpResolver", fun _ => .ok true, fun _ => .ok ("models/google/bert/1", some 10)⟩

/-- Concrete resolver that also supports every call and succeeds, with a
distinct result, for witnesses. -/
def cacheResolver : Resolver Nat (String × Option Int) :=
  ⟨"CacheResolver", fun _ => .ok true, fun _ => .ok ("cache/models/bert", none)⟩

/-- Concrete resolver whose `is_supported` always returns false. -/
def declineResolver : Resolver Nat (String × Option Int) :=
  ⟨"DeclineResolver", fun _ => .ok false, fun _ => .ok ("never", none)⟩

/-- Second always-declining resolver, for witnesses needing three names. -/
def declineResolverB : Resolver Nat (String × Option Int) :=
  ⟨"DeclineResolverB", fun _ => .ok false, fun _ => .ok ("never-b", none)⟩

/-- Third always-declining resolver, for witnesses needing three names. -/
def declineResolverC : Resolver Nat (String × Option Int) :=
  ⟨"DeclineResolverC", fun _ => .ok false, fun _ => .ok ("never-c", none)⟩

theorem dispatchLoop_fallsThrough_append (regName argsRepr : String) (args : Args)
    (l rest2 : List (Resolver Args Res)) :
    ∀ (fails : List String) (acc : Option Exc) (tr : List MethodCall),
    (∀ r ∈ l, fallsThrough args r = true) →
    dispatchLoop regName argsRepr args (l ++ rest2) fails acc tr =
      dispatchLoop regName argsRepr args rest2 (fails ++ l.map Resolver.name)
        (finalAuth args acc l) (tr ++ l.flatMap (fallEvents args)) := by
  induction l with
  | nil => intro fails acc tr _; simp [finalAuth]
  | cons r rest ih =>
    intro fails acc tr h
    have hr : fallsThrough args r = true := h r (List.mem_cons_self r rest)
    have hrest : ∀ x ∈ rest, fallsThrough args x = true :=
      fun x hx => h x (List.mem_cons_of_mem _ hx)
    cases hsup : r.is_supported args with
    | error exc =>
      have hauth : _is_auth_failure exc = true := by
        simpa [fallsThrough, hsup] using hr
      simp only [List.cons_append, dispatchLoop, hsup, hauth, if_true, List.append_eq]
      rw [ih _ _ _ hrest]
      simp [finalAuth, authExcOf, hsup, hauth, fallEvents, List.append_assoc]
    | ok b =>
      cases b with
      | false =>
        simp only [List.cons_append, dispatchLoop, hsup, List.append_eq]
        rw [ih _ _ _ hrest]
        simp [finalAuth, authExcOf, hsup, fallEvents, List.append_assoc]
      | true =>
        cases hinv : r.invoke args with
        | ok v =>
          exfalso
          simp [fallsThrough, hsup, hinv] at hr
        | error exc =>
          have hauth : _is_auth_failure exc = true := by
            simpa [fallsThrough, hsup, hinv] using hr
          simp only [List.cons_append, dispatchLoop, hsup, hinv, hauth, if_true, List.append_eq]
          rw [ih _ _ _ hrest]
          simp [finalAuth, authExcOf, hsup, hinv, hauth, fallEvents, List.append_assoc]

/-- C1: for every registry with at least one registered resolver, if the
last-registered resolver's `is_supported` returns true for the call arguments
and its invocation returns normally, dispatch returns exactly that resolver's
result, and the call trace consists of that resolver's two method calls only —
no earlier-registered resolver's `is_supported` or invocation is ever
called. -/
theorem call_last_registered_success_wins (reg : MultiImplRegistry Args Res)
    (pyRepr : Args → String) (front : List (Resolver Args Res))
    (lastImpl : Resolver Args Res) (args : Args) (r : Res)
    (himpls : reg.impls = front ++ [lastImpl])
    (hsup : lastImpl.is_supported args = .ok true)
    (hinv : lastImpl.invoke args = .ok r) :
    (reg.call pyRepr args).result = .ok r ∧
      (reg.call pyRepr args).trace =
        [.isSupportedCall lastImpl.name, .invokeCall lastImpl.name] := by
  constructor <;>
    simp [MultiImplRegistry.call, himpls, dispatchLoop, hsup, hinv]

theorem call_last_registered_success_wins_witness :
    ((⟨"ModelResolver", [cacheResolver, httpResolver]⟩ :
        MultiImplRegistry Nat (String × Option Int)).call Nat.repr 0).result =
        .ok ("models/google/bert/1", some 10) ∧
      ((⟨"ModelResolver", [cacheResolver, httpResolver]⟩ :
        MultiImplRegistry Nat (String × Option Int)).call Nat.repr 0).trace =
        [.isSupportedCall "HttpResolver", .invokeCall "HttpResolver"] :=
  call_last_registered_success_wins _ Nat.repr [cacheResolver] httpResolver 0 _
    rfl rfl rfl

/-- C6: for every registry where resolver `a` was registered after resolver
`b` (`a` last, `b` just before it) and `a` declines the call, dispatch
continues past `a` to `b` without invoking `a`; when `b` supports the call
and its invocation returns normally, dispatch returns the result of `b`.
The trace shows `a` had only its support check called. -/
theorem call_unsupported_falls_through (reg : MultiImplRegistry Args Res)
    (pyRepr : Args → String) (front : List (Resolver Args Res))
    (a b : Resolver Args Res) (args : Args) (r : Res)
    (himpls : reg.impls = front ++ [b, a])
    (ha : a.is_supported args = .ok false)
    (hbsup : b.is_supported args = .ok true)
    (hbinv : b.invoke args = .ok r) :
    (reg.call pyRepr args).result = .ok r ∧
      (reg.call pyRepr args).trace =
        [.isSupportedCall a.name, .isSupportedCall b.name, .invokeCall b.name] := by
  constructor <;>
    simp [MultiImplRegistry.call, himpls, dispatchLoop, ha, hbsup, hbinv]

theorem call_unsupported_falls_through_witness :
    ((⟨"DatasetResolver", [httpResolver, declineResolver]⟩ :
        MultiImplRegistry Nat (String × Option Int)).call Nat.repr 3).result =
        .ok ("models/google/bert/1", some 10) ∧
      ((⟨"DatasetResolver", [httpResolver, declineResolver]⟩ :
        MultiImplRegistry Nat (String × Option Int)).call Nat.repr 3).trace =
        [.isSupportedCall "DeclineResolver", .isSupportedCall "HttpResolver",
          .invokeCall "HttpResolver"] :=
  call_unsupported_falls_through _ Nat.repr [] declineResolver httpResolver 3 _
    rfl rfl rfl rfl

/-- C8: for every registry with zero registered resolvers, dispatch raises
the generic `RuntimeError` (with an empty failure list), and its message
mentions the registry's name. -/
theorem call_empty_registry_raises_generic (reg : MultiImplRegistry Args Res)
    (pyRepr : Args → String) (args : Args)
    (himpls : reg.impls = []) :
    (reg.call pyRepr args).result =
        .error (.runtimeError (missingImplMsg reg.name (pyRepr args) [])) ∧
      ∃ s1 s2, missingImplMsg reg.name (pyRepr args) [] = s1 ++ reg.name ++ s2 := by
  refine ⟨by simp [MultiImplRegistry.call, himpls, dispatchLoop], ?_⟩
  refine ⟨"Missing implementation that supports: ",
    "(" ++ (pyRepr args ++ ("). Tried " ++ pyListRepr [])), ?_⟩
  rw [String.append_assoc]; rfl

theorem call_empty_registry_raises_generic_witness :
    ((⟨"CompetitionResolver", []⟩ :
        MultiImplRegistry Nat (String × Option Int)).call Nat.repr 7).result =
        .error (.runtimeError (missingImplMsg "CompetitionResolver" (Nat.repr 7) [])) ∧
      ∃ s1 s2,
        missingImplMsg "CompetitionResolver" (Nat.repr 7) [] =
          s1 ++ "CompetitionResolver" ++ s2 :=
  call_empty_registry_raises_generic _ Nat.repr 7 rfl

/-- Concrete resolver whose invocation raises an `UnauthenticatedError`. -/
def authInvokeResolver : Resolver Nat (String × Option Int) :=
  ⟨"AuthInvokeResolver", fun _ => .ok true,
    fun _ => .error (.unauthenticatedError "api token missing")⟩

/-- Concrete resolver whose `is_supported` raises a Kaggle API HTTP error
with status 401. -/
def authSupportResolver : Resolver Nat (String × Option Int) :=
  ⟨"AuthSupportResolver", fun _ => .error (.kaggleApiHTTPError (some ⟨401⟩)),
    fun _ => .ok ("never-auth", none)⟩

/-- Concrete resolver whose invocation raises a non-authentication
exception. -/
def crashResolver : Resolver Nat (String × Option Int) :=
  ⟨"CrashResolver", fun _ => .ok true, fun _ => .error (.other "disk full")⟩

/-- Concrete resolver whose `is_supported` raises a Kaggle API HTTP error
with no attached response. -/
def noRespResolver : Resolver Nat (String × Option Int) :=
  ⟨"NoRespResolver", fun _ => .error (.kaggleApiHTTPError none),
    fun _ => .ok ("never-noresp", none)⟩

theorem call_nonauth_propagates_aux (reg : MultiImplRegistry Args Res)
    (pyRepr : Args → String) (pre post : List (Resolver Args Res))
    (bad : Resolver Args Res) (args : Args) (e : Exc)
    (hrev : reg.impls.reverse = pre ++ bad :: post)
    (hpre : ∀ x ∈ pre, fallsThrough args x = true)
    (hbad : raisesNonAuth args bad e) :
    (reg.call pyRepr args).result = .error e ∧
      (reg.call pyRepr args).trace =
        pre.flatMap (fallEvents args) ++ fallEvents args bad := by
  have h := dispatchLoop_fallsThrough_append reg.name (pyRepr args) args pre
    (bad :: post) [] none [] hpre
  unfold MultiImplRegistry.call
  rw [hrev, h]
  rcases hbad with ⟨hsup, hA⟩ | ⟨hsup, hinv, hA⟩
  · constructor <;> simp [dispatchLoop, hsup, hA, fallEvents]
  · constructor <;> simp [dispatchLoop, hsup, hinv, hA, fallEvents]

/-- C2: for every dispatch call in which every registered resolver falls
through (no invocation returns normally, nothing propagates) and at least one
resolver raised an authentication failure, dispatch raises the last-recorded
authentication exception — the one raised by the last resolver tried that
failed with an authentication failure (`finalAuth` over the iteration order),
not the generic `RuntimeError`. Exception identity is modelled as value
equality. -/
theorem call_exhausted_raises_last_auth (reg : MultiImplRegistry Args Res)
    (pyRepr : Args → String) (args : Args) (e : Exc)
    (hfall : ∀ r ∈ reg.impls, fallsThrough args r = true)
    (hlast : finalAuth args none reg.impls.reverse = some e) :
    (reg.call pyRepr args).result = .error e := by
  have hrev : ∀ r ∈ reg.impls.reverse, fallsThrough args r = true :=
    fun r hr => hfall r (List.mem_reverse.mp hr)
  have h := dispatchLoop_fallsThrough_append reg.name (pyRepr args) args
    reg.impls.reverse [] [] none [] hrev
  simp only [List.append_nil] at h
  unfold MultiImplRegistry.call
  rw [h, hlast]
  simp [dispatchLoop]

theorem call_exhausted_raises_last_auth_witness :
    ((⟨"NotebookOutputResolver", [authInvokeResolver, authSupportResolver]⟩ :
        MultiImplRegistry Nat (String × Option Int)).call Nat.repr 1).result =
      .error (.unauthenticatedError "api token missing") :=
  call_exhausted_raises_last_auth _ Nat.repr 1
    (.unauthenticatedError "api token missing") (by decide) rfl

/-- C3: for every dispatch call, if a tried resolver raises an exception not
classified as an authentication failure (from `is_supported` or from its
invocation) after every resolver tried before it fell through, dispatch
propagates that exception and the trace stops at that resolver — no
remaining (earlier-registered) resolver is tried. With `pre` containing an
auth-failing resolver this covers the particular case: first-tried raises
auth, second-tried raises non-auth, and the second's exception propagates. -/
theorem call_nonauth_exception_propagates (reg : MultiImplRegistry Args Res)
    (pyRepr : Args → String) (pre post : List (Resolver Args Res))
    (bad : Resolver Args Res) (args : Args) (e : Exc)
    (hrev : reg.impls.reverse = pre ++ bad :: post)
    (hpre : ∀ x ∈ pre, fallsThrough args x = true)
    (hbad : raisesNonAuth args bad e) :
    (reg.call pyRepr args).result = .error e ∧
      (reg.call pyRepr args).trace =
        pre.flatMap (fallEvents args) ++ fallEvents args bad :=
  call_nonauth_propagates_aux reg pyRepr pre post bad args e hrev hpre hbad

theorem call_nonauth_exception_propagates_witness :
    ((⟨"ModelResolverReg", [crashResolver, authInvokeResolver]⟩ :
        MultiImplRegistry Nat (String × Option Int)).call Nat.repr 2).result =
        .error (.other "disk full") ∧
      ((⟨"ModelResolverReg", [crashResolver, authInvokeResolver]⟩ :
        MultiImplRegistry Nat (String × Option Int)).call Nat.repr 2).trace =
        [authInvokeResolver].flatMap (fallEvents 2) ++ fallEvents 2 crashResolver :=
  call_nonauth_exception_propagates _ Nat.repr [authInvokeResolver] []
    crashResolver 2 (.other "disk full") rfl (by decide)
    (Or.inr ⟨rfl, rfl, rfl⟩)

/-- C4: `_is_auth_failure` classifies an exception as an authentication
failure if and only if it is an `UnauthenticatedError`, or it is a
`KaggleApiHTTPError` or `ColabHTTPError` whose attached response is present
and carries status code 401 or 403; every other exception is classified as
non-authentication. -/
theorem is_auth_failure_iff (e : Exc) :
    _is_auth_failure e = true ↔
      ((∃ msg, e = .unauthenticatedError msg) ∨
        (∃ resp,
          (e = .kaggleApiHTTPError (some resp) ∨ e = .colabHTTPError (some resp)) ∧
            (resp.status_code = 401 ∨ resp.status_code = 403))) := by
  cases e with
  | unauthenticatedError m => simp [_is_auth_failure]
  | kaggleApiHTTPError o =>
    cases o with
    | none => simp [_is_auth_failure]
    | some resp =>
      simp [_is_auth_failure, HTTPStatus.UNAUTHORIZED, HTTPStatus.FORBIDDEN]
  | colabHTTPError o =>
    cases o with
    | none => simp [_is_auth_failure]
    | some resp =>
      simp [_is_auth_failure, HTTPStatus.UNAUTHORIZED, HTTPStatus.FORBIDDEN]
  | runtimeError m => simp [_is_auth_failure]
  | other m => simp [_is_auth_failure]

/-- C5: for every registry whose only registered resolver raises an
authentication failure when tried, dispatch re-raises that exact exception
(exception identity modelled as value equality). -/
theorem call_single_auth_reraised (reg : MultiImplRegistry Args Res)
    (pyRepr : Args → String) (onlyImpl : Resolver Args Res) (args : Args) (e : Exc)
    (himpls : reg.impls = [onlyImpl])
    (hauth : raisesAuth args onlyImpl e) :
    (reg.call pyRepr args).result = .error e := by
  rcases hauth with ⟨hsup, hA⟩ | ⟨hsup, hinv, hA⟩
  · simp [MultiImplRegistry.call, himpls, dispatchLoop, hsup, hA]
  · simp [MultiImplRegistry.call, himpls, dispatchLoop, hsup, hinv, hA]

theorem call_single_auth_reraised_witness :
    ((⟨"DatasetResolverReg", [authSupportResolver]⟩ :
        MultiImplRegistry Nat (String × Option Int)).call Nat.repr 9).result =
      .error (.kaggleApiHTTPError (some ⟨401⟩)) :=
  call_single_auth_reraised _ Nat.repr authSupportResolver 9
    (.kaggleApiHTTPError (some ⟨401⟩)) rfl (Or.inl ⟨rfl, rfl⟩)

/-- C7: for every registry in which resolvers `r1`, then `r2`, then `r3` were
registered and all three decline the call, dispatch raises the generic
`RuntimeError` whose recorded failure list is exactly
`[r3.name, r2.name, r1.name]` — reverse registration order — and whose
message is the registry's name followed by the call arguments and that
failure list. -/
theorem call_three_unsupported_generic_error (reg : MultiImplRegistry Args Res)
    (pyRepr : Args → String) (r1 r2 r3 : Resolver Args Res) (args : Args)
    (himpls : reg.impls = [r1, r2, r3])
    (h1 : r1.is_supported args = .ok false)
    (h2 : r2.is_supported args = .ok false)
    (h3 : r3.is_supported args = .ok false) :
    (reg.call pyRepr args).result =
        .error (.runtimeError (missingImplMsg reg.name (pyRepr args)
          [r3.name, r2.name, r1.name])) ∧
      missingImplMsg reg.name (pyRepr args) [r3.name, r2.name, r1.name] =
        "Missing implementation that supports: " ++ reg.name ++
          ("(" ++ (pyRepr args ++
            ("). Tried " ++ pyListRepr [r3.name, r2.name, r1.name]))) := by
  constructor
  · simp [MultiImplRegistry.call, himpls, dispatchLoop, h1, h2, h3]
  · rw [String.append_assoc]; rfl

theorem call_three_unsupported_generic_error_witness :
    ((⟨"ModelResolverAll", [declineResolver, declineResolverB, declineResolverC]⟩ :
        MultiImplRegistry Nat (String × Option Int)).call Nat.repr 4).result =
        .error (.runtimeError (missingImplMsg "ModelResolverAll" (Nat.repr 4)
          ["DeclineResolverC", "DeclineResolverB", "DeclineResolver"])) ∧
      missingImplMsg "ModelResolverAll" (Nat.repr 4)
          ["DeclineResolverC", "DeclineResolverB", "DeclineResolver"] =
        "Missing implementation that supports: " ++ "ModelResolverAll" ++
          ("(" ++ (Nat.repr 4 ++
            ("). Tried " ++
              pyListRepr ["DeclineResolverC", "DeclineResolverB", "DeclineResolver"]))) :=
  call_three_unsupported_generic_error _ Nat.repr
    declineResolver declineResolverB declineResolverC 4 rfl rfl rfl rfl

/-- C9: for every dispatch call in which every resolver tried before `good`
falls through and at least one of them raised an authentication failure,
if `good` supports the call and its invocation returns normally, dispatch
returns the successful result — the recorded authentication exception is
discarded, never raised. -/
theorem call_success_discards_recorded_auth (reg : MultiImplRegistry Args Res)
    (pyRepr : Args → String) (pre post : List (Resolver Args Res))
    (good : Resolver Args Res) (args : Args) (r : Res)
    (hrev : reg.impls.reverse = pre ++ good :: post)
    (hpre : ∀ x ∈ pre, fallsThrough args x = true)
    (_hauth : ∃ x ∈ pre, authExcOf args x ≠ none)
    (hsup : good.is_supported args = .ok true)
    (hinv : good.invoke args = .ok r) :
    (reg.call pyRepr args).result = .ok r := by
  have h := dispatchLoop_fallsThrough_append reg.name (pyRepr args) args pre
    (good :: post) [] none [] hpre
  unfold MultiImplRegistry.call
  rw [hrev, h]
  simp [dispatchLoop, hsup, hinv]

theorem call_success_discards_recorded_auth_witness :
    ((⟨"NotebookOutputReg", [httpResolver, authSupportResolver]⟩ :
        MultiImplRegistry Nat (String × Option Int)).call Nat.repr 5).result =
      .ok ("models/google/bert/1", some 10) :=
  call_success_discards_recorded_auth _ Nat.repr [authSupportResolver] []
    httpResolver 5 _ rfl (by decide) (by decide) rfl rfl

/-- C10: a `KaggleApiHTTPError` or `ColabHTTPError` whose attached response
is absent is classified as a non-authentication failure, so a dispatch call
in which a tried resolver raises it (after every resolver tried before it
fell through) propagates it immediately — the trace stops at that resolver
instead of falling back to the next one. -/
theorem call_http_error_no_response_propagates (reg : MultiImplRegistry Args Res)
    (pyRepr : Args → String) (pre post : List (Resolver Args Res))
    (bad : Resolver Args Res) (args : Args) (e : Exc)
    (he : e = .kaggleApiHTTPError none ∨ e = .colabHTTPError none)
    (hrev : reg.impls.reverse = pre ++ bad :: post)
    (hpre : ∀ x ∈ pre, fallsThrough args x = true)
    (hbad : bad.is_supported args = .error e ∨
      (bad.is_supported args = .ok true ∧ bad.invoke args = .error e)) :
    _is_auth_failure e = false ∧
      (reg.call pyRepr args).result = .error e ∧
      (reg.call pyRepr args).trace =
        pre.flatMap (fallEvents args) ++ fallEvents args bad := by
  have hA : _is_auth_failure e = false := by rcases he with rfl | rfl <;> rfl
  have hbad2 : raisesNonAuth args bad e := by
    rcases hbad with h1 | ⟨h1, h2⟩
    · exact Or.inl ⟨h1, hA⟩
    · exact Or.inr ⟨h1, h2, hA⟩
  exact ⟨hA, call_nonauth_propagates_aux reg pyRepr pre post bad args e hrev hpre hbad2⟩

theorem call_http_error_no_response_propagates_witness :
    _is_auth_failure (.kaggleApiHTTPError none) = false ∧
      ((⟨"DatasetResolverNR", [declineResolver, noRespResolver]⟩ :
          MultiImplRegistry Nat (String × Option Int)).call Nat.repr 6).result =
        .error (.kaggleApiHTTPError none) ∧
      ((⟨"DatasetResolverNR", [declineResolver, noRespResolver]⟩ :
          MultiImplRegistry Nat (String × Option Int)).call Nat.repr 6).trace =
        ([] : List (Resolver Nat (String × Option Int))).flatMap (fallEvents 6) ++
          fallEvents 6 noRespResolver :=
  call_http_error_no_response_propagates _ Nat.repr [] [declineResolver]
    noRespResolver 6 (.kaggleApiHTTPError none) (Or.inl rfl) rfl
    (by decide) (Or.inl rfl)
